import Mathlib

/-!
Verification of the PyNote editor (DarsheelR/PyNote) against its
natural-language specification.

The development shallowly embeds the two source files:

* `src/pynote/themes.py` — theme catalog and JSON preferences store;
* `src/pynote/main.py` — the `PyNoteApp` application shell.

The configuration file `~/.pynote_config.json` is modelled as an abstract
`ConfigFile` state (missing / unparseable / parsed JSON value), and every
preferences-store operation is a pure function of that state, translated
line by line from the Python source.  Strings are ASCII in all claims, so
lowercasing is modelled on ASCII only.
-/

set_option autoImplicit false

namespace PyNote

/-- A JSON value, as produced by Python's `json.load`.  Numbers are
modelled as integers (every number appearing in the program and claims is
an integer). -/
inductive Json where
  | null
  | bool (b : Bool)
  | num (n : Int)
  | str (s : String)
  | arr (xs : List Json)
  | obj (kvs : List (String × Json))

/-- First value stored under key `k`, mirroring lookup in a Python dict
(keys of a parsed JSON object are unique). -/
def jget : List (String × Json) → String → Option Json
  | [], _ => none
  | (k', v') :: rest, k => if k' = k then some v' else jget rest k

/-- `data[k] = v` on a Python dict: replace the value at an existing key in
place, otherwise append the new binding. -/
def jset : List (String × Json) → String → Json → List (String × Json)
  | [], k, v => [(k, v)]
  | (k', v') :: rest, k, v =>
    if k' = k then (k, v) :: rest else (k', v') :: jset rest k v

/-- State of the configuration file `~/.pynote_config.json`:
absent, present but not valid JSON, or present and parsing to `j`. -/
inductive ConfigFile where
  | missing
  | corrupt
  | valid (j : Json)

/-- `_load_config` (themes.py 98-106): return the parsed file content, or
`{}` when the file is absent or `open`/`json.load` raises. -/
def loadConfig : ConfigFile → Json
  | .missing => .obj []
  | .corrupt => .obj []
  | .valid j => j

/-- `_save_config(data)` (themes.py 109-115): `json.dump` the object; the
resulting file state parses back to `data`. -/
def saveConfig (data : Json) : ConfigFile := .valid data

/-- ASCII lowercasing of one character, the fragment of Python's
`str.lower` exercised by the program's inputs. -/
def lowerChar (c : Char) : Char :=
  if 'A' ≤ c ∧ c ≤ 'Z' then Char.ofNat (c.toNat + 32) else c

/-- ASCII `str.lower`. -/
def lowerStr (s : String) : String := String.mk (s.toList.map lowerChar)

/-- The ten-colour palette record of themes.py. -/
structure Theme where
  bg : String
  fg : String
  select_bg : String
  select_fg : String
  insert_bg : String
  gutter_bg : String
  gutter_fg : String
  status_bg : String
  status_fg : String
deriving DecidableEq

/-- `LIGHT_THEME` (themes.py 10-20). -/
def LIGHT_THEME : Theme :=
  { bg := "#FFFFFF"
    fg := "#000000"
    select_bg := "#316AC5"
    select_fg := "#FFFFFF"
    insert_bg := "#000000"
    gutter_bg := "#F0F0F0"
    gutter_fg := "#666666"
    status_bg := "#E0E0E0"
    status_fg := "#000000" }

/-- `DARK_THEME` (themes.py 22-32). -/
def DARK_THEME : Theme :=
  { bg := "#1E1E1E"
    fg := "#D4D4D4"
    select_bg := "#264F78"
    select_fg := "#FFFFFF"
    insert_bg := "#FFFFFF"
    gutter_bg := "#252526"
    gutter_fg := "#858585"
    status_bg := "#007ACC"
    status_fg := "#FFFFFF" }

/-- `get_theme(name)` (themes.py 35-47): the dark palette when
`name.lower() == 'dark'`, otherwise the light palette.  The source returns
`dict.copy()`, so the pure value returned here is faithful: callers get a
fresh value each call. -/
def get_theme (name : String) : Theme :=
  if lowerStr name = "dark" then DARK_THEME else LIGHT_THEME

/-- `load_theme_pref()` (themes.py 70-85).  The whole body runs under
`try`: a missing file, a parse failure, a non-object document
(`data.get` raises `AttributeError`), a non-string `theme` value
(`name.lower()` raises) and an unrecognized name all fall back to
`'light'`; a valid name is returned lowercased. -/
def load_theme_pref (cfg : ConfigFile) : String :=
  match cfg with
  | .missing => "light"
  | .corrupt => "light"
  | .valid j =>
    match j with
    | .obj kvs =>
      match jget kvs "theme" with
      | none => "light"
      | some (.str name) =>
        if lowerStr name = "light" ∨ lowerStr name = "dark" then lowerStr name
        else "light"
      | some _ => "light"
    | _ => "light"

/-- `save_theme_pref(name)` (themes.py 88-95): read-modify-write.  When
the loaded document is not an object, `data['theme'] = name` raises
`TypeError`, caught by the surrounding `try`, and the file is left
unchanged. -/
def save_theme_pref (name : String) (cfg : ConfigFile) : ConfigFile :=
  match loadConfig cfg with
  | .obj kvs => saveConfig (.obj (jset kvs "theme" (.str name)))
  | _ => cfg

/-- `load_recent_files()` (themes.py 118-125): `data.get('recent_files', [])`
with no surrounding `try`; on a non-object document `.get` raises
`AttributeError` (modelled as `.error ()`). -/
def load_recent_files (cfg : ConfigFile) : Except Unit Json :=
  match loadConfig cfg with
  | .obj kvs =>
    match jget kvs "recent_files" with
    | none => .ok (.arr [])
    | some v => .ok v
  | _ => .error ()

/-- `save_recent_files(files)` (themes.py 128-135): read-modify-write of
`data['recent_files'] = files[:5]`; a non-object document raises inside
the `try` and nothing is written. -/
def save_recent_files (files : List Json) (cfg : ConfigFile) : ConfigFile :=
  match loadConfig cfg with
  | .obj kvs => saveConfig (.obj (jset kvs "recent_files" (.arr (files.take 5))))
  | _ => cfg

/-- Python `==` between the string `s` and an arbitrary JSON value: true
exactly on the equal string. -/
def jsonIsStr (j : Json) (s : String) : Bool :=
  match j with
  | .str t => t = s
  | _ => false

/-- `if filepath in files: files.remove(filepath)` on a Python list:
remove the first element equal to `s`, if any. -/
def removeFirstStr (s : String) : List Json → List Json
  | [] => []
  | j :: rest => if jsonIsStr j s then rest else j :: removeFirstStr s rest

/-- `add_recent_file(filepath)` (themes.py 138-150), whole body under
`try`: load the list, drop the first existing occurrence, insert at the
front, truncate to 5, save.  When `load_recent_files` raises, or the
loaded value is not a list (`in` / `remove` / `insert` raise), the catch
leaves the file unchanged. -/
def add_recent_file (filepath : String) (cfg : ConfigFile) : ConfigFile :=
  match load_recent_files cfg with
  | .error _ => cfg
  | .ok files =>
    match files with
    | .arr xs =>
      save_recent_files ((Json.str filepath :: removeFirstStr filepath xs).take 5) cfg
    | _ => cfg

/-- `load_tab_width()` (themes.py 153-163): `data.get('tab_width', 4)` with
no surrounding `try`, so a non-object document raises `AttributeError`;
otherwise any stored value other than the integers 2, 4, 8 is replaced by
the default 4 (Python `width not in (2, 4, 8)` is true for every
non-numeric value the file can hold). -/
def load_tab_width (cfg : ConfigFile) : Except Unit Int :=
  match loadConfig cfg with
  | .obj kvs =>
    match jget kvs "tab_width" with
    | none => .ok 4
    | some (.num w) => if w = 2 ∨ w = 4 ∨ w = 8 then .ok w else .ok 4
    | some _ => .ok 4
  | _ => .error ()

/-- `save_tab_width(width)` (themes.py 166-175): an invalid width returns
before any I/O; a valid one is stored read-modify-write (non-object
documents raise inside the `try`, leaving the file unchanged). -/
def save_tab_width (width : Int) (cfg : ConfigFile) : ConfigFile :=
  if ¬(width = 2 ∨ width = 4 ∨ width = 8) then cfg
  else
    match loadConfig cfg with
    | .obj kvs => saveConfig (.obj (jset kvs "tab_width" (.num width)))
    | _ => cfg

/-- Default for the spell-check preference (spec §3/§9: opt-in feature,
conservative default `false`). -/
def spell_check_default : Bool := false

/-- Modelled from the spec: `load_spell_check_pref` is invoked by the
Application Shell (main.py line 68) but its definition is absent from the
provided sources (src/pynote/themes.py defines every other preferences
operation).  Spec §4.1: "returns a boolean; defaults to a fixed default
when absent or malformed", following the store's read pattern. -/
def load_spell_check_pref (cfg : ConfigFile) : Bool :=
  match loadConfig cfg with
  | .obj kvs =>
    match jget kvs "spell_check_enabled" with
    | some (.bool b) => b
    | _ => spell_check_default
  | _ => spell_check_default

/-- Modelled from the spec: `save_spell_check_pref` is invoked by the
Application Shell (main.py line 379) but its definition is absent from the
provided sources.  Spec §4.1: "read-modify-write, stores the boolean",
following the store's fail-safe write pattern (§4.1 failure semantics:
saves degrade to "do nothing"). -/
def save_spell_check_pref (enabled : Bool) (cfg : ConfigFile) : ConfigFile :=
  match loadConfig cfg with
  | .obj kvs => saveConfig (.obj (jset kvs "spell_check_enabled" (.bool enabled)))
  | _ => cfg

/-- Reading one field of the configuration file through `_load_config`. -/
def cfgRead (cfg : ConfigFile) (k : String) : Option Json :=
  match loadConfig cfg with
  | .obj kvs => jget kvs k
  | _ => none

/-- Whether `_load_config` yields a JSON object for this file state (true
for a missing file, an unparseable file, and any file holding a JSON
object — every state the documented file format admits). -/
def loadsAsObj (cfg : ConfigFile) : Bool :=
  match loadConfig cfg with
  | .obj _ => true
  | _ => false

/-- The stored recent-files list, read as a list (empty when the field is
absent, not a list, or the document is not an object). -/
def recentOf (cfg : ConfigFile) : List Json :=
  match load_recent_files cfg with
  | .ok (.arr xs) => xs
  | _ => []

/-- Whether the `recent_files` field is in a shape `add_recent_file` can
update: document an object, field absent or a list. -/
def recentFieldOk (cfg : ConfigFile) : Bool :=
  match loadConfig cfg with
  | .obj kvs =>
    match jget kvs "recent_files" with
    | none => true
    | some (.arr _) => true
    | some _ => false
  | _ => false

/-- The stored spell-check field read back as a boolean, `none` when the
field is absent or malformed. -/
def spellStoredBool (cfg : ConfigFile) : Option Bool :=
  match loadConfig cfg with
  | .obj kvs =>
    match jget kvs "spell_check_enabled" with
    | some (.bool b) => some b
    | _ => none
  | _ => none

/-!
Embedding of `src/pynote/main.py` (`PyNoteApp`).

The Tk `Text` widget always keeps one extra newline after the visible
content: for a buffer whose visible content is `buffer`,
`self.text.get('1.0', tk.END)` returns `buffer ++ "\n"`.
-/

/-- `self.text.get('1.0', tk.END)`: the widget text, which is the visible
buffer plus the trailing newline Tk appends. -/
def widgetText (buffer : String) : String := buffer ++ "\n"

/-- The ASCII whitespace characters recognised by Python's `str.split()`
and `str.strip()`. -/
def isPySpace (c : Char) : Bool :=
  c = ' ' ∨ c = '\t' ∨ c = '\n' ∨ c = '\r' ∨ c = '\x0b' ∨ c = '\x0c'

/-- Python `str.split()` over a character list: split on runs of
whitespace, dropping empty tokens.  `acc` is the current token, reversed. -/
def splitWsAux : List Char → List Char → List (List Char)
  | [], acc => if acc.isEmpty then [] else [acc.reverse]
  | c :: cs, acc =>
    if isPySpace c then
      if acc.isEmpty then splitWsAux cs [] else acc.reverse :: splitWsAux cs []
    else splitWsAux cs (c :: acc)

/-- Python `s.split()`. -/
def pySplit (s : String) : List String :=
  (splitWsAux s.toList []).map String.mk

/-- Python `s.strip()`: drop whitespace from both ends. -/
def pyStrip (s : String) : String :=
  String.mk (((s.toList.dropWhile isPySpace).reverse.dropWhile isPySpace).reverse)

/-- `chars = len(text) - 1` in `_update_status` (main.py 313-314): the
widget text length minus the one trailing newline. -/
def statusChars (buffer : String) : Nat := (widgetText buffer).length - 1

/-- `words = len(text.split()) if text.strip() else 0` in `_update_status`
(main.py 315). -/
def statusWords (buffer : String) : Nat :=
  if pyStrip (widgetText buffer) = "" then 0
  else (pySplit (widgetText buffer)).length

/-- The word count in the spec's words (§4.4.6): "the buffer's text split
on runs of whitespace, counting zero if the trimmed buffer is empty" —
stated over the buffer itself, for comparison with `statusWords`. -/
def spec_word_count (buffer : String) : Nat :=
  if pyStrip buffer = "" then 0 else (pySplit buffer).length

/-- Literal prefix test on character lists (`needle`, then haystack). -/
def isPrefixL : List Char → List Char → Bool
  | [], _ => true
  | _ :: _, [] => false
  | a :: as, b :: bs => a = b && isPrefixL as bs

/-- The match loop of `_find_text` (main.py 359-368): Tk
`search(query, pos, nocase=True)` repeatedly, each search starting at the
end of the previous match.  `i` is the index of the head of `hay` in the
full text and `skip` the number of characters still covered by the
previous match (searches resume only after them). -/
def occAux (needle : List Char) : List Char → Nat → Nat → List Nat
  | [], _, _ => []
  | c :: rest, i, skip =>
    match skip with
    | k + 1 => occAux needle rest (i + 1) k
    | 0 =>
      if isPrefixL needle (c :: rest) then
        i :: occAux needle rest (i + 1) (needle.length - 1)
      else occAux needle rest (i + 1) 0

/-- Start offsets of the matches `_find_text` tags, in the widget text,
found case-insensitively (Tk `nocase=True`). -/
def findPositions (buffer query : String) : List Nat :=
  occAux (lowerStr query).toList (lowerStr (widgetText buffer)).toList 0 0

/-- `count` at the end of the `_find_text` loop. -/
def findCount (buffer query : String) : Nat := (findPositions buffer query).length

/-- The notice `_find_text` shows (main.py 372-375). -/
def findReport (buffer query : String) : String :=
  if findCount buffer query > 0 then
    "Found " ++ toString (findCount buffer query) ++ " match(es)"
  else "No matches found"

/-- A modal `messagebox` notice (main.py uses `showinfo` / `showerror`). -/
inductive Notice where
  | info (title msg : String)
  | error (title msg : String)

/-- The three outcomes of `messagebox.askyesnocancel`. -/
inductive ConfirmResp where
  | yes
  | no
  | cancel

/-- The dialog answers an interaction may consume: the unsaved-changes
prompt, and the Save-As path choice (`none` = dialog cancelled). -/
structure UserInput where
  confirm : ConfirmResp
  saveAsPath : Option String

/-- On-disk text files, path to content. -/
def fsRead : List (String × String) → String → Option String
  | [], _ => none
  | (p, d) :: rest, q => if p = q then some d else fsRead rest q

/-- Writing a file: replace the content at an existing path, else add it. -/
def fsWrite : List (String × String) → String → String → List (String × String)
  | [], q, d => [(q, d)]
  | (p, d') :: rest, q, d =>
    if p = q then (q, d) :: rest else (p, d') :: fsWrite rest q d

/-- The `PyNoteApp` state the claims touch, plus the disk: the buffer is
the visible widget content, `modified` is Tk's `edit_modified` flag. -/
structure Editor where
  buffer : String
  filepath : Option String
  title : String
  modified : Bool
  theme_name : String
  tab_width : Int
  spell_check_enabled : Bool
  cfg : ConfigFile
  fs : List (String × String)

/-- `APP_TITLE` (main.py 54). -/
def APP_TITLE : String := "PyNote"

/-- `save_as` (main.py 291-305): prompt for a path; on cancel nothing
changes; on a chosen path write the widget text (buffer plus trailing
newline), rebind the File Reference, retitle, clear the modified flag and
notify.  (Write failures, which the source reports and swallows, are not
reachable in this disk model.) -/
def save_as (ui : UserInput) (st : Editor) : Editor × List Notice :=
  match ui.saveAsPath with
  | none => (st, [])
  | some p =>
    ({ st with
        fs := fsWrite st.fs p (widgetText st.buffer)
        filepath := some p
        title := APP_TITLE ++ " - " ++ p
        modified := false },
     [.info "Saved" ("File saved as: " ++ p)])

/-- `save_file` (main.py 279-289): write to the bound path if there is
one, else fall through to `save_as`. -/
def save_file (ui : UserInput) (st : Editor) : Editor × List Notice :=
  match st.filepath with
  | some p =>
    ({ st with fs := fsWrite st.fs p (widgetText st.buffer), modified := false },
     [.info "Saved" "File saved successfully"])
  | none => save_as ui st

/-- `_confirm_discard` (main.py 334-344): proceed at once on a clean
buffer; otherwise ask, with `cancel` aborting, `yes` saving first and
`no` discarding. -/
def confirm_discard (ui : UserInput) (st : Editor) : Bool × Editor × List Notice :=
  if st.modified then
    match ui.confirm with
    | .cancel => (false, st, [])
    | .yes =>
      match save_file ui st with
      | (st', ns) => (true, st', ns)
    | .no => (true, st, [])
  else (true, st, [])

/-- `_open_recent(filepath)` (main.py 225-242): confirm-discard first;
then report `File not found` and stop when the path is gone; otherwise
read the file, replace the buffer (a programmatic delete/insert, which
sets Tk's modified flag), rebind the File Reference, retitle and register
the path in the recent list. -/
def open_recent (ui : UserInput) (filepath : String) (st : Editor) :
    Editor × List Notice :=
  match confirm_discard ui st with
  | (false, st1, ns1) => (st1, ns1)
  | (true, st1, ns1) =>
    match fsRead st1.fs filepath with
    | none => (st1, ns1 ++ [.error "Error" ("File not found: " ++ filepath)])
    | some data =>
      ({ st1 with
          buffer := data
          filepath := some filepath
          title := APP_TITLE ++ " - " ++ filepath
          modified := true
          cfg := add_recent_file filepath st1.cfg },
       ns1)

/-- `PyNoteApp.__init__` (main.py 58-79), the preference-loading prefix:
title, no File Reference, empty clean buffer, and the four preference
loads.  `load_tab_width` can raise (themes.py 160 on a non-object
document), in which case construction fails. -/
def pynote_init (cfg : ConfigFile) (fs : List (String × String)) :
    Except Unit Editor :=
  match load_tab_width cfg with
  | .error e => .error e
  | .ok w =>
    .ok
      { buffer := ""
        filepath := none
        title := APP_TITLE
        modified := false
        theme_name := load_theme_pref cfg
        tab_width := w
        spell_check_enabled := load_spell_check_pref cfg
        cfg := cfg
        fs := fs }

/-- `_on_toggle_spell_check` (main.py 377-380): take the checkbox value,
persist it via `save_spell_check_pref`, rerun the spell pass (visual
only). -/
def on_toggle_spell_check (checkbox : Bool) (st : Editor) : Editor :=
  { st with
      spell_check_enabled := checkbox
      cfg := save_spell_check_pref checkbox st.cfg }

/-- The light palette exactly as §6 of the spec tabulates it, written from
the spec's words for comparison with the source's `LIGHT_THEME`. -/
def SPEC_LIGHT_PALETTE : Theme :=
  { bg := "#FFFFFF"
    fg := "#000000"
    select_bg := "#316AC5"
    select_fg := "#FFFFFF"
    insert_bg := "#000000"
    gutter_bg := "#F0F0F0"
    gutter_fg := "#666666"
    status_bg := "#E0E0E0"
    status_fg := "#000000" }

/-- The dark palette exactly as §6 of the spec tabulates it, written from
the spec's words for comparison with the source's `DARK_THEME`. -/
def SPEC_DARK_PALETTE : Theme :=
  { bg := "#1E1E1E"
    fg := "#D4D4D4"
    select_bg := "#264F78"
    select_fg := "#FFFFFF"
    insert_bg := "#FFFFFF"
    gutter_bg := "#252526"
    gutter_fg := "#858585"
    status_bg := "#007ACC"
    status_fg := "#FFFFFF" }

/-- The configuration state after adding the five distinct paths A..E to a
fresh store, holding exactly [E, D, C, B, A]. -/
def fiveCfg : ConfigFile :=
  add_recent_file "E" (add_recent_file "D" (add_recent_file "C"
    (add_recent_file "B" (add_recent_file "A" ConfigFile.missing))))

/-- Case-insensitive literal occurrence of `query` at character offset `p`
of `text`. -/
def occursAt (text query : String) (p : Nat) : Bool :=
  isPrefixL query.toList (text.toList.drop p)

/-- A dirty untitled editor whose disk holds no files, with a recent entry
"gone.txt" that no longer exists. -/
def deadPathEditor : Editor :=
  { buffer := "draft"
    filepath := none
    title := "PyNote"
    modified := true
    theme_name := "light"
    tab_width := 4
    spell_check_enabled := false
    cfg := ConfigFile.missing
    fs := [] }

/-- The same editor with a clean (unmodified) empty buffer. -/
def cleanEditor : Editor :=
  { buffer := ""
    filepath := none
    title := "PyNote"
    modified := false
    theme_name := "light"
    tab_width := 4
    spell_check_enabled := false
    cfg := ConfigFile.missing
    fs := [] }

/-! Helper lemmas about the JSON object operations. -/

theorem jget_jset_self (kvs : List (String × Json)) (k : String) (v : Json) :
    jget (jset kvs k v) k = some v := by
  induction kvs with
  | nil => simp [jget, jset]
  | cons hd tl ih =>
    obtain ⟨k', v'⟩ := hd
    by_cases h : k' = k
    · simp [jset, h, jget]
    · simp [jset, h, jget, ih]

theorem jget_jset_ne (kvs : List (String × Json)) (k k' : String) (v : Json)
    (h : k' ≠ k) : jget (jset kvs k v) k' = jget kvs k' := by
  induction kvs with
  | nil => simp [jget, jset, Ne.symm h]
  | cons hd tl ih =>
    obtain ⟨a, b⟩ := hd
    by_cases ha : a = k
    · subst ha
      simp [jset, jget, Ne.symm h]
    · by_cases ha' : a = k'
      · subst ha'
        simp [jset, jget, h]
      · simp [jset, ha, jget, ha', ih]

theorem jsonIsStr_true_iff (j : Json) (s : String) :
    jsonIsStr j s = true ↔ j = Json.str s := by
  cases j <;> simp [jsonIsStr]

theorem removeFirstStr_sublist (s : String) (xs : List Json) :
    List.Sublist (removeFirstStr s xs) xs := by
  induction xs with
  | nil => simp [removeFirstStr]
  | cons j rest ih =>
    by_cases h : jsonIsStr j s
    · simp [removeFirstStr, h]
    · simpa [removeFirstStr, h] using List.Sublist.cons₂ j ih

theorem nodup_removeFirstStr (s : String) (xs : List Json) (h : xs.Nodup) :
    (removeFirstStr s xs).Nodup :=
  (removeFirstStr_sublist s xs).nodup h

theorem str_not_mem_removeFirstStr (s : String) (xs : List Json) (h : xs.Nodup) :
    Json.str s ∉ removeFirstStr s xs := by
  induction xs with
  | nil => simp [removeFirstStr]
  | cons j rest ih =>
    rw [List.nodup_cons] at h
    by_cases hj : jsonIsStr j s
    · have hjs : j = Json.str s := (jsonIsStr_true_iff j s).1 hj
      subst hjs
      simpa [removeFirstStr, hj] using h.1
    · have hjs : j ≠ Json.str s := fun hc => hj ((jsonIsStr_true_iff j s).2 hc)
      rw [removeFirstStr, if_neg hj]
      simp only [List.mem_cons]
      rintro (hc | hc)
      · exact hjs hc.symm
      · exact ih h.2 hc

/-! Helper lemmas about whitespace splitting and the search loop. -/

theorem splitWsAux_append_ws (w : Char) (hw : isPySpace w = true) (l : List Char) :
    ∀ acc : List Char, splitWsAux (l ++ [w]) acc = splitWsAux l acc := by
  induction l with
  | nil =>
    intro acc
    cases h : acc.isEmpty <;> simp [splitWsAux, hw, h]
  | cons c cs ih =>
    intro acc
    by_cases hc : isPySpace c
    · cases h : acc.isEmpty <;> simp [splitWsAux, hc, h, ih]
    · simp [splitWsAux, hc, ih]

theorem splitWsAux_all_ws (l : List Char) (h : ∀ c ∈ l, isPySpace c = true) :
    splitWsAux l [] = [] := by
  induction l with
  | nil => rfl
  | cons c cs ih =>
    have hc : isPySpace c = true := h c (by simp)
    simp only [splitWsAux, hc, if_true, List.isEmpty_nil]
    exact ih fun d hd => h d (List.mem_cons_of_mem c hd)

theorem pyStrip_empty_all_ws (s : String) (h : pyStrip s = "") :
    ∀ c ∈ s.toList, isPySpace c = true := by
  unfold pyStrip at h
  have h0 : (((s.toList.dropWhile isPySpace).reverse.dropWhile isPySpace).reverse)
      = [] := by
    have := congrArg String.data h
    simpa using this
  rw [List.reverse_eq_nil_iff, List.dropWhile_eq_nil_iff] at h0
  intro c hc
  rw [← List.takeWhile_append_dropWhile isPySpace s.toList] at hc
  rcases List.mem_append.1 hc with h2 | h2
  · exact List.mem_takeWhile_imp h2
  · exact h0 c (List.mem_reverse.2 h2)

theorem toList_widgetText (buffer : String) :
    (widgetText buffer).toList = buffer.toList ++ ['\n'] :=
  String.data_append buffer "\n"

theorem pySplit_widgetText (buffer : String) :
    pySplit (widgetText buffer) = pySplit buffer := by
  unfold pySplit
  rw [toList_widgetText, splitWsAux_append_ws '\n' (by decide)]

theorem statusWords_eq_spec (buffer : String) :
    statusWords buffer = spec_word_count buffer := by
  unfold statusWords spec_word_count
  by_cases h1 : pyStrip (widgetText buffer) = ""
  · have hall := pyStrip_empty_all_ws _ h1
    have hb : ∀ c ∈ buffer.toList, isPySpace c = true := fun c hc =>
      hall c (by rw [toList_widgetText]; exact List.mem_append_left _ hc)
    have key : splitWsAux buffer.data [] = [] := splitWsAux_all_ws buffer.toList hb
    by_cases h2 : pyStrip buffer = ""
    · simp [h1, h2]
    · simp [h1, h2, pySplit, String.toList, key]
  · rw [if_neg h1, pySplit_widgetText]
    by_cases h2 : pyStrip buffer = ""
    · have hb := pyStrip_empty_all_ws _ h2
      have key : splitWsAux buffer.data [] = [] := splitWsAux_all_ws buffer.toList hb
      simp [h2, pySplit, String.toList, key]
    · rw [if_neg h2]

theorem occAux_spec (needle : List Char) (hne : needle ≠ []) (hay : List Char) :
    ∀ i skip : Nat,
      ((occAux needle hay i skip).Chain' fun a b => a + needle.length ≤ b)
      ∧ ∀ p ∈ occAux needle hay i skip,
          i + skip ≤ p ∧ isPrefixL needle (hay.drop (p - i)) = true := by
  have hlen : 1 ≤ needle.length := List.length_pos.2 hne
  induction hay with
  | nil => intro i skip; simp [occAux]
  | cons c rest ih =>
    intro i skip
    cases skip with
    | succ k =>
      simp only [occAux]
      refine ⟨(ih (i + 1) k).1, ?_⟩
      intro p hp
      obtain ⟨hp1, hp2⟩ := (ih (i + 1) k).2 p hp
      refine ⟨by omega, ?_⟩
      have hpi : p - i = (p - (i + 1)) + 1 := by omega
      rw [hpi, List.drop_succ_cons]
      exact hp2
    | zero =>
      by_cases hm : isPrefixL needle (c :: rest) = true
      · simp only [occAux, hm, if_true]
        have htail := ih (i + 1) (needle.length - 1)
        constructor
        · rw [List.chain'_cons']
          constructor
          · intro y hy
            have hy' := (htail.2 y (List.mem_of_mem_head? hy)).1
            omega
          · exact htail.1
        · intro p hp
          rcases List.mem_cons.1 hp with hp | hp
          · subst hp
            simpa using hm
          · obtain ⟨hp1, hp2⟩ := htail.2 p hp
            refine ⟨by omega, ?_⟩
            have hpi : p - i = (p - (i + 1)) + 1 := by omega
            rw [hpi, List.drop_succ_cons]
            exact hp2
      · simp only [occAux, hm, if_false]
        refine ⟨(ih (i + 1) 0).1, ?_⟩
        intro p hp
        obtain ⟨hp1, hp2⟩ := (ih (i + 1) 0).2 p hp
        refine ⟨by omega, ?_⟩
        have hpi : p - i = (p - (i + 1)) + 1 := by omega
        rw [hpi, List.drop_succ_cons]
        exact hp2

theorem toList_lowerStr (s : String) : (lowerStr s).toList = s.toList.map lowerChar :=
  rfl

theorem lowerStr_ne_nil (s : String) (h : s ≠ "") : (lowerStr s).toList ≠ [] := by
  rw [toList_lowerStr]
  intro hc
  have hnil : s.toList = [] := List.map_eq_nil_iff.1 hc
  apply h
  cases s with
  | mk data =>
    simp only [String.toList] at hnil
    subst hnil
    rfl

theorem length_lowerStr (s : String) : (lowerStr s).toList.length = s.length := by
  rw [toList_lowerStr, List.length_map]
  rfl

/-! The claims. -/

/-- Claim C4: `get_theme` returns the dark palette exactly when the name
case-insensitively equals "dark" and the light palette for every other
name (empty and garbage included, with no error path), and the returned
palettes match the exact hex constants of spec §6.  The source returns
`dict.copy()`, so each call yields a fresh value — captured here by
`get_theme` being a pure function of the name. -/
theorem C4_get_theme (name : String) :
    (lowerStr name = "dark" → get_theme name = SPEC_DARK_PALETTE)
    ∧ (lowerStr name ≠ "dark" → get_theme name = SPEC_LIGHT_PALETTE) := by
  constructor
  · intro h
    simp only [get_theme, h, if_true]
    decide
  · intro h
    simp only [get_theme, h, if_false, if_neg h]
    decide

/-- Witness for C4 at the spec's own test inputs. -/
theorem C4_get_theme_witness :
    lowerStr "DARK" = "dark"
    ∧ get_theme "DARK" = SPEC_DARK_PALETTE
    ∧ lowerStr "" ≠ "dark"
    ∧ get_theme "" = SPEC_LIGHT_PALETTE
    ∧ lowerStr "anything-else" ≠ "dark"
    ∧ get_theme "anything-else" = SPEC_LIGHT_PALETTE :=
  ⟨by decide, (C4_get_theme "DARK").1 (by decide), by decide,
   (C4_get_theme "").2 (by decide), by decide,
   (C4_get_theme "anything-else").2 (by decide)⟩

/-- Claim C7: on a missing configuration file and on a file whose content
is not valid JSON, every preferences load returns (without raising) the
default: theme "light", tab width 4, empty recent list, default
spell-check state. -/
theorem C7_load_defaults (cfg : ConfigFile)
    (h : cfg = ConfigFile.missing ∨ cfg = ConfigFile.corrupt) :
    load_theme_pref cfg = "light"
    ∧ load_tab_width cfg = Except.ok 4
    ∧ load_recent_files cfg = Except.ok (Json.arr [])
    ∧ load_spell_check_pref cfg = spell_check_default := by
  rcases h with h | h <;> subst h <;> exact ⟨rfl, rfl, rfl, rfl⟩

/-- Witness for C7 at both file states. -/
theorem C7_load_defaults_witness :
    (ConfigFile.missing = ConfigFile.missing
      ∨ ConfigFile.missing = ConfigFile.corrupt)
    ∧ load_theme_pref ConfigFile.missing = "light"
    ∧ load_tab_width ConfigFile.missing = Except.ok 4
    ∧ load_recent_files ConfigFile.missing = Except.ok (Json.arr [])
    ∧ load_spell_check_pref ConfigFile.missing = spell_check_default
    ∧ load_theme_pref ConfigFile.corrupt = "light"
    ∧ load_tab_width ConfigFile.corrupt = Except.ok 4 :=
  ⟨Or.inl rfl,
   (C7_load_defaults ConfigFile.missing (Or.inl rfl)).1,
   (C7_load_defaults ConfigFile.missing (Or.inl rfl)).2.1,
   (C7_load_defaults ConfigFile.missing (Or.inl rfl)).2.2.1,
   (C7_load_defaults ConfigFile.missing (Or.inl rfl)).2.2.2,
   (C7_load_defaults ConfigFile.corrupt (Or.inr rfl)).1,
   (C7_load_defaults ConfigFile.corrupt (Or.inr rfl)).2.1⟩

/-- Claim C10: `save_theme_pref` stores its argument verbatim, and a
subsequent `load_theme_pref` returns the lowercased name when it is
case-insensitively "light" or "dark" and "light" for every other name.
Stated for every file state whose content `_load_config` reads as an
object — that is, a missing file, an unparseable file, or a file holding
a JSON object, which is every state the documented format admits. -/
theorem C10_theme_save_load (cfg : ConfigFile) (name : String)
    (h : loadsAsObj cfg = true) :
    cfgRead (save_theme_pref name cfg) "theme" = some (Json.str name)
    ∧ load_theme_pref (save_theme_pref name cfg)
        = (if lowerStr name = "light" ∨ lowerStr name = "dark" then lowerStr name
           else "light") := by
  unfold loadsAsObj at h
  cases hobj : loadConfig cfg with
  | obj kvs =>
    have hsave : save_theme_pref name cfg
        = ConfigFile.valid (Json.obj (jset kvs "theme" (Json.str name))) := by
      unfold save_theme_pref
      rw [hobj]
      rfl
    constructor
    · rw [hsave]
      unfold cfgRead loadConfig
      exact jget_jset_self kvs "theme" (Json.str name)
    · rw [hsave]
      unfold load_theme_pref
      dsimp only
      rw [jget_jset_self]
  | null => rw [hobj] at h; cases h
  | bool b => rw [hobj] at h; cases h
  | num n => rw [hobj] at h; cases h
  | str s => rw [hobj] at h; cases h
  | arr xs => rw [hobj] at h; cases h

/-- Witness for C10: saving "DARK" over a fresh (missing) file stores it
verbatim and loads back as "dark"; saving "blue" loads back as "light". -/
theorem C10_theme_save_load_witness :
    loadsAsObj ConfigFile.missing = true
    ∧ cfgRead (save_theme_pref "DARK" ConfigFile.missing) "theme"
        = some (Json.str "DARK")
    ∧ load_theme_pref (save_theme_pref "DARK" ConfigFile.missing) = "dark"
    ∧ load_theme_pref (save_theme_pref "blue" ConfigFile.missing) = "light" :=
  ⟨rfl,
   (C10_theme_save_load ConfigFile.missing "DARK" rfl).1,
   by
     have h2 := (C10_theme_save_load ConfigFile.missing "DARK" rfl).2
     rw [h2]
     decide,
   by
     have h2 := (C10_theme_save_load ConfigFile.missing "blue" rfl).2
     rw [h2]
     decide⟩

/-- Claim C1: the spell-check preference operations (spec-modelled, see
`load_spell_check_pref`): the load returns the fixed default whenever the
stored field is absent or malformed, the save stores the boolean by
read-modify-write so that a subsequent load returns it, the Application
Shell reads the preference on construction, and every toggle of the Spell
Check checkbox persists the new value via the save. -/
theorem C1_spell_check_pref (cfg : ConfigFile) (st : Editor) (b : Bool)
    (fs : List (String × String)) :
    (spellStoredBool cfg = none →
        load_spell_check_pref cfg = spell_check_default)
    ∧ (loadsAsObj cfg = true →
        load_spell_check_pref (save_spell_check_pref b cfg) = b)
    ∧ (∀ st0 : Editor, pynote_init cfg fs = Except.ok st0 →
        st0.spell_check_enabled = load_spell_check_pref cfg)
    ∧ (on_toggle_spell_check b st).cfg = save_spell_check_pref b st.cfg
    ∧ (on_toggle_spell_check b st).spell_check_enabled = b := by
  refine ⟨?_, ?_, ?_, rfl, rfl⟩
  · intro h
    unfold spellStoredBool at h
    unfold load_spell_check_pref
    cases hobj : loadConfig cfg with
    | obj kvs =>
      rw [hobj] at h
      dsimp only at h ⊢
      cases hg : jget kvs "spell_check_enabled" with
      | none => rfl
      | some v =>
        rw [hg] at h
        cases v <;> simp_all
    | null => rfl
    | bool c => rfl
    | num n => rfl
    | str s => rfl
    | arr xs => rfl
  · intro h
    unfold loadsAsObj at h
    cases hobj : loadConfig cfg with
    | obj kvs =>
      have hsave : save_spell_check_pref b cfg
          = ConfigFile.valid (Json.obj (jset kvs "spell_check_enabled" (Json.bool b))) := by
        unfold save_spell_check_pref
        rw [hobj]
        rfl
      rw [hsave]
      unfold load_spell_check_pref loadConfig
      dsimp only
      rw [jget_jset_self]
    | null => rw [hobj] at h; cases h
    | bool c => rw [hobj] at h; cases h
    | num n => rw [hobj] at h; cases h
    | str s => rw [hobj] at h; cases h
    | arr xs => rw [hobj] at h; cases h
  · intro st0 hinit
    unfold pynote_init at hinit
    cases hw : load_tab_width cfg with
    | error e => rw [hw] at hinit; cases hinit
    | ok w =>
      rw [hw] at hinit
      cases hinit
      rfl

/-- Witness for C1 on a fresh (missing) configuration file. -/
theorem C1_spell_check_pref_witness :
    spellStoredBool ConfigFile.missing = none
    ∧ load_spell_check_pref ConfigFile.missing = spell_check_default
    ∧ loadsAsObj ConfigFile.missing = true
    ∧ load_spell_check_pref (save_spell_check_pref true ConfigFile.missing) = true
    ∧ pynote_init ConfigFile.missing [] = Except.ok
        { buffer := ""
          filepath := none
          title := "PyNote"
          modified := false
          theme_name := "light"
          tab_width := 4
          spell_check_enabled := false
          cfg := ConfigFile.missing
          fs := [] }
    ∧ ({ buffer := ""
         filepath := none
         title := "PyNote"
         modified := false
         theme_name := "light"
         tab_width := 4
         spell_check_enabled := false
         cfg := ConfigFile.missing
         fs := [] } : Editor).spell_check_enabled
        = load_spell_check_pref ConfigFile.missing :=
  ⟨rfl,
   (C1_spell_check_pref ConfigFile.missing
      { buffer := "", filepath := none, title := "PyNote", modified := false,
        theme_name := "light", tab_width := 4, spell_check_enabled := false,
        cfg := ConfigFile.missing, fs := [] } true []).1 rfl,
   rfl,
   (C1_spell_check_pref ConfigFile.missing
      { buffer := "", filepath := none, title := "PyNote", modified := false,
        theme_name := "light", tab_width := 4, spell_check_enabled := false,
        cfg := ConfigFile.missing, fs := [] } true []).2.1 rfl,
   rfl,
   (C1_spell_check_pref ConfigFile.missing
      { buffer := "", filepath := none, title := "PyNote", modified := false,
        theme_name := "light", tab_width := 4, spell_check_enabled := false,
        cfg := ConfigFile.missing, fs := [] } true []).2.2.1 _ rfl⟩

/-- Claim C8: each single-field read-modify-write save (`save_theme_pref`,
`save_tab_width`, `save_recent_files`) preserves every other field of the
configuration file, unrecognized fields included: any key other than the
one being written reads back unchanged. -/
theorem C8_save_frame (cfg : ConfigFile) (k : String) :
    (∀ name : String, k ≠ "theme" →
        cfgRead (save_theme_pref name cfg) k = cfgRead cfg k)
    ∧ (∀ w : Int, k ≠ "tab_width" →
        cfgRead (save_tab_width w cfg) k = cfgRead cfg k)
    ∧ (∀ fl : List Json, k ≠ "recent_files" →
        cfgRead (save_recent_files fl cfg) k = cfgRead cfg k) := by
  cases hobj : loadConfig cfg with
  | obj kvs =>
    refine ⟨?_, ?_, ?_⟩
    · intro name h
      unfold save_theme_pref cfgRead
      rw [hobj]
      unfold saveConfig loadConfig
      exact jget_jset_ne kvs "theme" k (Json.str name) h
    · intro w h
      by_cases hw : w = 2 ∨ w = 4 ∨ w = 8
      · unfold save_tab_width cfgRead
        rw [if_neg (not_not_intro hw), hobj]
        unfold saveConfig loadConfig
        exact jget_jset_ne kvs "tab_width" k (Json.num w) h
      · unfold save_tab_width
        rw [if_pos hw]
    · intro fl h
      unfold save_recent_files cfgRead
      rw [hobj]
      unfold saveConfig loadConfig
      exact jget_jset_ne kvs "recent_files" k (Json.arr (fl.take 5)) h
  | null =>
    refine ⟨fun name h => ?_, fun w h => ?_, fun fl h => ?_⟩
    · unfold save_theme_pref
      rw [hobj]
    · unfold save_tab_width
      by_cases hw : w = 2 ∨ w = 4 ∨ w = 8
      · rw [if_neg (not_not_intro hw), hobj]
      · rw [if_pos hw]
    · unfold save_recent_files
      rw [hobj]
  | bool c =>
    refine ⟨fun name h => ?_, fun w h => ?_, fun fl h => ?_⟩
    · unfold save_theme_pref
      rw [hobj]
    · unfold save_tab_width
      by_cases hw : w = 2 ∨ w = 4 ∨ w = 8
      · rw [if_neg (not_not_intro hw), hobj]
      · rw [if_pos hw]
    · unfold save_recent_files
      rw [hobj]
  | num n =>
    refine ⟨fun name h => ?_, fun w h => ?_, fun fl h => ?_⟩
    · unfold save_theme_pref
      rw [hobj]
    · unfold save_tab_width
      by_cases hw : w = 2 ∨ w = 4 ∨ w = 8
      · rw [if_neg (not_not_intro hw), hobj]
      · rw [if_pos hw]
    · unfold save_recent_files
      rw [hobj]
  | str s =>
    refine ⟨fun name h => ?_, fun w h => ?_, fun fl h => ?_⟩
    · unfold save_theme_pref
      rw [hobj]
    · unfold save_tab_width
      by_cases hw : w = 2 ∨ w = 4 ∨ w = 8
      · rw [if_neg (not_not_intro hw), hobj]
      · rw [if_pos hw]
    · unfold save_recent_files
      rw [hobj]
  | arr xs =>
    refine ⟨fun name h => ?_, fun w h => ?_, fun fl h => ?_⟩
    · unfold save_theme_pref
      rw [hobj]
    · unfold save_tab_width
      by_cases hw : w = 2 ∨ w = 4 ∨ w = 8
      · rw [if_neg (not_not_intro hw), hobj]
      · rw [if_pos hw]
    · unfold save_recent_files
      rw [hobj]

/-- Witness for C8: a file holding an unrecognized field "custom" keeps it
across all three saves. -/
theorem C8_save_frame_witness :
    ("custom" : String) ≠ "theme"
    ∧ ("custom" : String) ≠ "tab_width"
    ∧ ("custom" : String) ≠ "recent_files"
    ∧ cfgRead (ConfigFile.valid (Json.obj [("custom", Json.num 7)])) "custom"
        = some (Json.num 7)
    ∧ cfgRead (save_theme_pref "dark"
          (ConfigFile.valid (Json.obj [("custom", Json.num 7)]))) "custom"
        = some (Json.num 7)
    ∧ cfgRead (save_tab_width 8
          (ConfigFile.valid (Json.obj [("custom", Json.num 7)]))) "custom"
        = some (Json.num 7)
    ∧ cfgRead (save_recent_files [Json.str "a.txt"]
          (ConfigFile.valid (Json.obj [("custom", Json.num 7)]))) "custom"
        = some (Json.num 7) := by
  refine ⟨by decide, by decide, by decide, rfl, ?_, ?_, ?_⟩
  · rw [(C8_save_frame (ConfigFile.valid (Json.obj [("custom", Json.num 7)]))
      "custom").1 "dark" (by decide)]
    exact rfl
  · rw [(C8_save_frame (ConfigFile.valid (Json.obj [("custom", Json.num 7)]))
      "custom").2.1 8 (by decide)]
    exact rfl
  · rw [(C8_save_frame (ConfigFile.valid (Json.obj [("custom", Json.num 7)]))
      "custom").2.2 [Json.str "a.txt"] (by decide)]
    exact rfl

/-- Claim C6: the tab-width round trips for 2, 4 and 8 and `save_tab_width 5`
performs no write, so a load after it is unchanged; but the final clause of
the claim ("load_tab_width always returns one of 2, 4, 8") fails on the
code: on a file holding the valid non-object JSON document `5`,
`load_tab_width` raises `AttributeError` out of `data.get` (themes.py 160
has no try/except, unlike `load_theme_pref`), shown by the last conjunct. -/
theorem C6_tab_width (cfg : ConfigFile) (h : loadsAsObj cfg = true) :
    load_tab_width (save_tab_width 2 cfg) = Except.ok 2
    ∧ load_tab_width (save_tab_width 4 cfg) = Except.ok 4
    ∧ load_tab_width (save_tab_width 8 cfg) = Except.ok 8
    ∧ save_tab_width 5 cfg = cfg
    ∧ load_tab_width (save_tab_width 5 cfg) = load_tab_width cfg
    ∧ (∀ w : Int, ¬(w = 2 ∨ w = 4 ∨ w = 8) → save_tab_width w cfg = cfg)
    ∧ load_tab_width (ConfigFile.valid (Json.num 5)) = Except.error () := by
  unfold loadsAsObj at h
  have hreject : ∀ w : Int, ¬(w = 2 ∨ w = 4 ∨ w = 8) → save_tab_width w cfg = cfg := by
    intro w hw
    unfold save_tab_width
    rw [if_pos hw]
  have hnoop : save_tab_width 5 cfg = cfg := hreject 5 (by norm_num)
  cases hobj : loadConfig cfg with
  | obj kvs =>
    have key : ∀ w : Int, (w = 2 ∨ w = 4 ∨ w = 8) →
        load_tab_width (save_tab_width w cfg) = Except.ok w := by
      intro w hw
      unfold save_tab_width
      rw [if_neg (not_not_intro hw), hobj]
      unfold load_tab_width saveConfig loadConfig
      dsimp only
      rw [jget_jset_self]
      simp [hw]
    exact ⟨key 2 (by norm_num), key 4 (by norm_num), key 8 (by norm_num),
      hnoop, by rw [hnoop], hreject, rfl⟩
  | null => rw [hobj] at h; cases h
  | bool c => rw [hobj] at h; cases h
  | num n => rw [hobj] at h; cases h
  | str s => rw [hobj] at h; cases h
  | arr xs => rw [hobj] at h; cases h

/-- Witness for C6 on a fresh (missing) configuration file. -/
theorem C6_tab_width_witness :
    loadsAsObj ConfigFile.missing = true
    ∧ load_tab_width (save_tab_width 2 ConfigFile.missing) = Except.ok 2
    ∧ load_tab_width (save_tab_width 4 ConfigFile.missing) = Except.ok 4
    ∧ load_tab_width (save_tab_width 8 ConfigFile.missing) = Except.ok 8
    ∧ save_tab_width 5 ConfigFile.missing = ConfigFile.missing
    ∧ load_tab_width (ConfigFile.valid (Json.num 5)) = Except.error () :=
  ⟨rfl,
   (C6_tab_width ConfigFile.missing rfl).1,
   (C6_tab_width ConfigFile.missing rfl).2.1,
   (C6_tab_width ConfigFile.missing rfl).2.2.1,
   (C6_tab_width ConfigFile.missing rfl).2.2.2.1,
   (C6_tab_width ConfigFile.missing rfl).2.2.2.2.2.2⟩

theorem loadsAsObj_exists (cfg : ConfigFile) (h : loadsAsObj cfg = true) :
    ∃ kvs, loadConfig cfg = Json.obj kvs := by
  unfold loadsAsObj at h
  cases hobj : loadConfig cfg with
  | obj kvs => exact ⟨kvs, rfl⟩
  | null => rw [hobj] at h; cases h
  | bool b => rw [hobj] at h; cases h
  | num n => rw [hobj] at h; cases h
  | str s => rw [hobj] at h; cases h
  | arr xs => rw [hobj] at h; cases h

theorem recentFieldOk_obj (cfg : ConfigFile) (h : recentFieldOk cfg = true) :
    ∃ kvs, loadConfig cfg = Json.obj kvs := by
  unfold recentFieldOk at h
  cases hobj : loadConfig cfg with
  | obj kvs => exact ⟨kvs, rfl⟩
  | null => rw [hobj] at h; cases h
  | bool b => rw [hobj] at h; cases h
  | num n => rw [hobj] at h; cases h
  | str s => rw [hobj] at h; cases h
  | arr xs => rw [hobj] at h; cases h

theorem recentOf_save_recent (cfg : ConfigFile) (kvs : List (String × Json))
    (hobj : loadConfig cfg = Json.obj kvs) (fl : List Json) :
    recentOf (save_recent_files fl cfg) = fl.take 5 := by
  unfold save_recent_files
  rw [hobj]
  unfold recentOf load_recent_files saveConfig loadConfig
  dsimp only
  rw [jget_jset_self]

theorem save_recent_noop (fl : List Json) (cfg : ConfigFile)
    (h : loadsAsObj cfg = false) : save_recent_files fl cfg = cfg := by
  unfold loadsAsObj at h
  unfold save_recent_files
  cases hobj : loadConfig cfg with
  | obj kvs => rw [hobj] at h; cases h
  | null => rfl
  | bool b => rfl
  | num n => rfl
  | str s => rfl
  | arr xs => rfl

theorem add_recent_noop (cfg : ConfigFile) (p : String)
    (h : recentFieldOk cfg = false) : add_recent_file p cfg = cfg := by
  unfold recentFieldOk at h
  unfold add_recent_file load_recent_files
  cases hobj : loadConfig cfg with
  | obj kvs =>
    rw [hobj] at h
    dsimp only at h ⊢
    cases hg : jget kvs "recent_files" with
    | none => rw [hg] at h; cases h
    | some v =>
      rw [hg] at h
      cases v <;> simp_all
  | null => rfl
  | bool b => rfl
  | num n => rfl
  | str s => rfl
  | arr xs => rfl

theorem recentOf_nil_of_not_ok (cfg : ConfigFile)
    (h : recentFieldOk cfg = false) : recentOf cfg = [] := by
  unfold recentFieldOk at h
  unfold recentOf load_recent_files
  cases hobj : loadConfig cfg with
  | obj kvs =>
    rw [hobj] at h
    dsimp only at h ⊢
    cases hg : jget kvs "recent_files" with
    | none => simp_all
    | some v =>
      rw [hg] at h
      cases v <;> simp_all
  | null => rfl
  | bool b => rfl
  | num n => rfl
  | str s => rfl
  | arr xs => rfl

theorem recentFieldOk_false_of_not_obj (cfg : ConfigFile)
    (h : loadsAsObj cfg = false) : recentFieldOk cfg = false := by
  unfold loadsAsObj at h
  unfold recentFieldOk
  cases hobj : loadConfig cfg with
  | obj kvs => rw [hobj] at h; cases h
  | null => rfl
  | bool b => rfl
  | num n => rfl
  | str s => rfl
  | arr xs => rfl

theorem add_recent_eq (cfg : ConfigFile) (p : String)
    (h : recentFieldOk cfg = true) :
    add_recent_file p cfg
      = save_recent_files ((Json.str p :: removeFirstStr p (recentOf cfg)).take 5)
          cfg := by
  unfold recentFieldOk at h
  unfold add_recent_file recentOf load_recent_files
  cases hobj : loadConfig cfg with
  | obj kvs =>
    rw [hobj] at h
    dsimp only at h ⊢
    cases hg : jget kvs "recent_files" with
    | none => rfl
    | some v =>
      rw [hg] at h
      cases v <;> simp_all
  | null => rw [hobj] at h; cases h
  | bool b => rw [hobj] at h; cases h
  | num n => rw [hobj] at h; cases h
  | str s => rw [hobj] at h; cases h
  | arr xs => rw [hobj] at h; cases h

/-- Claim C3: the recent-files list is kept at no more than 5 entries and
duplicate-free, newest first, by the store operations: `add_recent_file`
preserves `Nodup`, always leaves at most 5 entries, and (whenever the
stored field is in a shape it can update) produces exactly the new path
consed onto the de-duplicated previous list, truncated to 5;
`save_recent_files` stores at most 5 entries and preserves `Nodup`; and
the two concrete scenarios of the claim hold: adding A, B, C, A from
empty yields [A, C, B], and adding a 6th distinct path to a full list of
5 drops the oldest. -/
theorem C3_recent_files (cfg : ConfigFile) (p : String) (fl : List Json) :
    ((recentOf cfg).Nodup → (recentOf (add_recent_file p cfg)).Nodup)
    ∧ (recentOf (add_recent_file p cfg)).length ≤ 5
    ∧ (recentFieldOk cfg = true →
        recentOf (add_recent_file p cfg)
          = (Json.str p :: removeFirstStr p (recentOf cfg)).take 5)
    ∧ (recentOf (save_recent_files fl cfg)).length ≤ 5
    ∧ (loadsAsObj cfg = true → fl.Nodup →
        (recentOf (save_recent_files fl cfg)).Nodup)
    ∧ recentOf (add_recent_file "A" (add_recent_file "C" (add_recent_file "B"
        (add_recent_file "A" ConfigFile.missing))))
        = [Json.str "A", Json.str "C", Json.str "B"]
    ∧ recentOf (add_recent_file "F" (add_recent_file "E" (add_recent_file "D"
        (add_recent_file "C" (add_recent_file "B" (add_recent_file "A"
          ConfigFile.missing))))))
        = [Json.str "F", Json.str "E", Json.str "D", Json.str "C",
           Json.str "B"] := by
  have hchar : recentFieldOk cfg = true →
      recentOf (add_recent_file p cfg)
        = (Json.str p :: removeFirstStr p (recentOf cfg)).take 5 := by
    intro h
    obtain ⟨kvs, hobj⟩ := recentFieldOk_obj cfg h
    rw [add_recent_eq cfg p h, recentOf_save_recent cfg kvs hobj,
      List.take_take]
    simp
  refine ⟨?_, ?_, hchar, ?_, ?_, rfl, rfl⟩
  · intro hnd
    by_cases hok : recentFieldOk cfg = true
    · rw [hchar hok]
      refine (List.take_sublist 5 _).nodup (List.nodup_cons.2 ⟨?_, ?_⟩)
      · exact str_not_mem_removeFirstStr p _ hnd
      · exact nodup_removeFirstStr p _ hnd
    · rw [add_recent_noop cfg p (by simpa using hok)]
      exact hnd
  · by_cases hok : recentFieldOk cfg = true
    · rw [hchar hok]
      exact List.length_take_le 5 _
    · rw [add_recent_noop cfg p (by simpa using hok),
        recentOf_nil_of_not_ok cfg (by simpa using hok)]
      simp
  · by_cases hob : loadsAsObj cfg = true
    · obtain ⟨kvs, hobj⟩ := loadsAsObj_exists cfg hob
      rw [recentOf_save_recent cfg kvs hobj]
      exact List.length_take_le 5 _
    · rw [save_recent_noop fl cfg (by simpa using hob),
        recentOf_nil_of_not_ok cfg
          (recentFieldOk_false_of_not_obj cfg (by simpa using hob))]
      simp
  · intro hob hfl
    obtain ⟨kvs, hobj⟩ := loadsAsObj_exists cfg hob
    rw [recentOf_save_recent cfg kvs hobj]
    exact (List.take_sublist 5 fl).nodup hfl

/-- Witness for C3 on the concrete full five-entry store. -/
theorem C3_recent_files_witness :
    recentOf fiveCfg
      = [Json.str "E", Json.str "D", Json.str "C", Json.str "B", Json.str "A"]
    ∧ (recentOf fiveCfg).Nodup
    ∧ (recentOf (add_recent_file "F" fiveCfg)).Nodup
    ∧ recentFieldOk fiveCfg = true
    ∧ recentOf (add_recent_file "F" fiveCfg)
        = (Json.str "F" :: removeFirstStr "F" (recentOf fiveCfg)).take 5
    ∧ loadsAsObj fiveCfg = true
    ∧ (recentOf (save_recent_files [Json.str "x"] fiveCfg)).Nodup := by
  have hlist : recentOf fiveCfg
      = [Json.str "E", Json.str "D", Json.str "C", Json.str "B",
         Json.str "A"] := rfl
  have hnd : (recentOf fiveCfg).Nodup := by rw [hlist]; simp
  exact ⟨hlist, hnd,
    (C3_recent_files fiveCfg "F" [Json.str "x"]).1 hnd,
    rfl,
    (C3_recent_files fiveCfg "F" [Json.str "x"]).2.2.1 rfl,
    rfl,
    (C3_recent_files fiveCfg "F" [Json.str "x"]).2.2.2.2.1 rfl (by simp)⟩


/-- Claim C2 (amended: the character count reported for buffer content
"one two three" is 13, not 14): the status line reports a word count equal
to the number of tokens of the buffer split on runs of whitespace (zero for
a blank buffer) and a character count equal to the widget text's length
minus the one trailing newline the display surface appends — that is, the
length of the visible buffer. -/
theorem C2_status_counts (buffer : String) :
    statusWords buffer = spec_word_count buffer
    ∧ statusChars buffer = buffer.length
    ∧ statusWords "one two three" = 3
    ∧ statusChars "one two three" = 13 := by
  refine ⟨statusWords_eq_spec buffer, ?_, by decide, by decide⟩
  unfold statusChars widgetText
  rw [String.length_append]
  rfl

/-- Claim C2's concrete example is false on the code: `_update_status`
computes `len(text) - 1` over the widget text "one two three\n", which is
13, not the claimed 14. -/
theorem C2_status_counterexample : ¬ statusChars "one two three" = 14 := by
  decide

/-- Claim C5: for every buffer and non-empty query, `_find_text` scans
once from the start of the widget text: every tagged position is a
case-insensitive literal occurrence of the query, consecutive matches are
at least a query-length apart (each search resumes at the end of the
previous match, so matches never overlap), a zero count leaves no match
tagged, and the reported notice is the match count, or "No matches found"
when it is zero. -/
theorem C5_find (buffer query : String) (h : query ≠ "") :
    (∀ p ∈ findPositions buffer query,
        occursAt (lowerStr (widgetText buffer)) (lowerStr query) p = true)
    ∧ (findPositions buffer query).Chain' (fun a b => a + query.length ≤ b)
    ∧ (findCount buffer query = 0 → findPositions buffer query = [])
    ∧ findReport buffer query =
        (if findCount buffer query = 0 then "No matches found"
         else "Found " ++ toString (findCount buffer query) ++ " match(es)") := by
  have hne := lowerStr_ne_nil query h
  have hspec := occAux_spec (lowerStr query).toList hne
    (lowerStr (widgetText buffer)).toList 0 0
  refine ⟨?_, ?_, ?_, ?_⟩
  · intro p hp
    unfold findPositions at hp
    have h2 := (hspec.2 p hp).2
    unfold occursAt
    simpa using h2
  · have hchain := hspec.1
    rw [length_lowerStr] at hchain
    exact hchain
  · intro h0
    exact List.length_eq_zero.1 h0
  · unfold findReport
    by_cases h0 : findCount buffer query = 0
    · simp [h0]
    · simp [h0, Nat.pos_of_ne_zero h0]

/-- Witness for C5 on the spec's test buffer: "at" matches 3 times (in
cat, sat, mat), "zzz" matches 0 times with nothing tagged. -/
theorem C5_find_witness :
    ("at" : String) ≠ ""
    ∧ findCount "the cat sat on the mat" "at" = 3
    ∧ findPositions "the cat sat on the mat" "at" = [5, 9, 20]
    ∧ (∀ p ∈ findPositions "the cat sat on the mat" "at",
        occursAt (lowerStr (widgetText "the cat sat on the mat"))
          (lowerStr "at") p = true)
    ∧ findReport "the cat sat on the mat" "at" = "Found 3 match(es)"
    ∧ findCount "the cat sat on the mat" "zzz" = 0
    ∧ findPositions "the cat sat on the mat" "zzz" = []
    ∧ findReport "the cat sat on the mat" "zzz" = "No matches found" :=
  ⟨by decide, by decide, by decide,
   (C5_find "the cat sat on the mat" "at" (by decide)).1,
   by rfl, by decide, by decide, by rfl⟩

/-- Claim C9 (amended: provided the confirm-discard step proceeds without
saving — in particular whenever the buffer is unmodified, or the user
chooses Discard): Recent-Open of a path that no longer exists on disk
reports a file-not-found error and changes nothing: buffer, File
Reference, title, preferences and disk are all left exactly as they
were. -/
theorem C9_open_recent_missing (ui : UserInput) (st : Editor) (path : String)
    (h : st.modified = false ∨ ui.confirm = ConfirmResp.no)
    (hfs : fsRead st.fs path = none) :
    open_recent ui path st
      = (st, [Notice.error "Error" ("File not found: " ++ path)]) := by
  have hcd : confirm_discard ui st = (true, st, []) := by
    rcases h with h | h
    · simp [confirm_discard, h]
    · by_cases hm : st.modified
      · simp [confirm_discard, hm, h]
      · simp [confirm_discard, hm]
  unfold open_recent
  rw [hcd]
  dsimp only
  rw [hfs]
  dsimp only
  rw [List.nil_append]

/-- Witness for C9's amended statement on a concrete clean editor. -/
theorem C9_open_recent_missing_witness :
    (cleanEditor.modified = false
      ∨ (⟨ConfirmResp.cancel, none⟩ : UserInput).confirm = ConfirmResp.no)
    ∧ fsRead cleanEditor.fs "gone.txt" = none
    ∧ open_recent ⟨ConfirmResp.cancel, none⟩ "gone.txt" cleanEditor
        = (cleanEditor, [Notice.error "Error" ("File not found: " ++ "gone.txt")]) :=
  ⟨Or.inl rfl, rfl,
   C9_open_recent_missing ⟨ConfirmResp.cancel, none⟩ cleanEditor "gone.txt"
     (Or.inl rfl) rfl⟩

/-- Claim C9 as stated is false on the code: with a dirty buffer, choosing
Cancel at the unsaved-changes prompt makes `_open_recent` return before
the existence check, so Recent-Open of the missing path "gone.txt" shows
no file-not-found error at all. -/
theorem C9_open_recent_counterexample :
    deadPathEditor.modified = true
    ∧ fsRead deadPathEditor.fs "gone.txt" = none
    ∧ (open_recent ⟨ConfirmResp.cancel, none⟩ "gone.txt" deadPathEditor).2
        = [] :=
  ⟨rfl, rfl, rfl⟩

end PyNote
